import Mathlib

/-!
Shallow embedding of the Impact Aggregation Engine of
`scripts/compute_impacts.py` and `scripts/db_schema.py`
(PolicyEngine/state-legislative-tracker), together with proofs about the
claims of its specification.

Conventions of the embedding:
* Python/NumPy floats are embedded as `ℚ` (exact arithmetic).
* `np.maximum(x, 1)` is `max x 1`; boolean NumPy masks become `Bool`-valued
  row predicates; a weighted `MicroSeries.sum()` over a mask becomes a sum
  over the matching rows of `value * weight`.
* Fallible library calls are embedded as `Option`: `none` models a raised
  exception.
-/

/-- One row of the household-level parallel arrays used by
`compute_winners_losers`, `compute_decile_impact` and
`compute_district_impacts`: baseline/reform `household_net_income`,
`household_weight`, `household_count_people`, `household_income_decile`. -/
structure Household where
  baseline_income : ℚ
  reform_income : ℚ
  weight : ℚ
  count_people : ℚ
  decile : ℤ
deriving DecidableEq

/-- The capped relative-change formula of `compute_winners_losers`
(compute_impacts.py lines 364-368) and `compute_district_impacts`
(lines 502-506): `absolute_change = r - b`, `capped_baseline = max(b, 1)`,
`capped_reform = max(r, 1) + absolute_change`, and the change is
`(capped_reform - capped_baseline) / capped_baseline`. -/
def relative_change (b r : ℚ) : ℚ :=
  let absolute_change := r - b
  let capped_baseline := max b 1
  let capped_reform := max r 1 + absolute_change
  (capped_reform - capped_baseline) / capped_baseline

/-- Per-row relative income change (`income_change` in the source). -/
def income_change (h : Household) : ℚ :=
  relative_change h.baseline_income h.reform_income

/-- Weighted sum of `f` over the rows passing `mask`: embeds
`micro_series[mask].sum()` where the series holds `f` of each row and the
weights are the household weights. -/
def masked_weighted_sum (rows : List Household) (mask : Household → Bool)
    (f : Household → ℚ) : ℚ :=
  ((rows.filter mask).map (fun h => f h * h.weight)).sum

/-- Weighted people count over a mask: `people[mask].sum()` in the source,
where `people` is the `household_count_people` MicroSeries carrying
household weights. -/
def masked_people_sum (rows : List Household) (mask : Household → Bool) : ℚ :=
  masked_weighted_sum rows mask (fun h => h.count_people)

/-- Membership test `(x > lower) & (x <= upper)` of the BOUNDS/LABELS loop
(compute_impacts.py line 385); `none` stands for the infinite bound
(`-np.inf` as a lower bound, `np.inf` as an upper bound). -/
def in_bucket (lower upper : Option ℚ) (x : ℚ) : Bool :=
  (match lower with
   | none => true
   | some l => decide (l < x)) &&
  (match upper with
   | none => true
   | some u => decide (x ≤ u))

/-- The per-decile people proportion of one winners/losers bucket
(compute_impacts.py lines 384-396): weighted people in the decile AND the
bucket over weighted people in the decile, with the source's guard
`people_in_decile == 0 and people_in_both == 0` producing `0.0`. -/
def bucket_proportion (rows : List Household) (d : ℤ)
    (lower upper : Option ℚ) : ℚ :=
  let people_in_decile := masked_people_sum rows (fun h => h.decile == d)
  let people_in_both := masked_people_sum rows
    (fun h => h.decile == d && in_bucket lower upper (income_change h))
  if people_in_decile = 0 ∧ people_in_both = 0 then 0
  else people_in_both / people_in_decile

/-- The reported aggregate of one bucket:
`sum(outcome_groups[label]) / 10` over deciles 1..10
(compute_impacts.py line 398). -/
def bucket_average (rows : List Household) (lower upper : Option ℚ) : ℚ :=
  (((List.range 10).map
      (fun i : ℕ => bucket_proportion rows ((i : ℤ) + 1) lower upper)).sum) / 10

/-- Aggregate for the "Lose more than 5%" bucket `(-inf, -0.05]`. -/
def lose_more_5pct (rows : List Household) : ℚ :=
  bucket_average rows none (some (-(1/20)))

/-- Aggregate for the "Lose less than 5%" bucket `(-0.05, -1e-3]`. -/
def lose_less_5pct (rows : List Household) : ℚ :=
  bucket_average rows (some (-(1/20))) (some (-(1/1000)))

/-- Aggregate for the "No change" bucket `(-1e-3, 1e-3]`. -/
def no_change_share (rows : List Household) : ℚ :=
  bucket_average rows (some (-(1/1000))) (some (1/1000))

/-- Aggregate for the "Gain less than 5%" bucket `(1e-3, 0.05]`. -/
def gain_less_5pct (rows : List Household) : ℚ :=
  bucket_average rows (some (1/1000)) (some (1/20))

/-- Aggregate for the "Gain more than 5%" bucket `(0.05, inf)`. -/
def gain_more_5pct (rows : List Household) : ℚ :=
  bucket_average rows (some (1/20)) none

/-- `GAIN_LESS_5PCT_THRESHOLD = 0.001` (compute_impacts.py line 75). -/
def GAIN_LESS_5PCT_THRESHOLD : ℚ := 1/1000

/-- `NO_CHANGE_THRESHOLD = -0.001` (compute_impacts.py line 76). -/
def NO_CHANGE_THRESHOLD : ℚ := -(1/1000)

/-- District winner predicate `district_relative > GAIN_LESS_5PCT_THRESHOLD`
(compute_impacts.py line 536). -/
def is_winner (h : Household) : Bool :=
  decide (GAIN_LESS_5PCT_THRESHOLD < income_change h)

/-- District loser predicate `district_relative <= NO_CHANGE_THRESHOLD`
(compute_impacts.py line 537). -/
def is_loser (h : Household) : Bool :=
  decide (income_change h ≤ NO_CHANGE_THRESHOLD)

/-- Per-decile winner proportion of `compute_district_impacts`
(lines 541-553): `0.0` when no row of the subset is in the decile,
otherwise guarded weighted proportion of winners. -/
def district_winner_proportion (rows : List Household) (d : ℤ) : ℚ :=
  if (rows.filter (fun h => h.decile == d)).isEmpty then 0
  else
    let people_in_decile := masked_people_sum rows (fun h => h.decile == d)
    let winners_in_decile := masked_people_sum rows
      (fun h => h.decile == d && is_winner h)
    if people_in_decile = 0 ∧ winners_in_decile = 0 then 0
    else winners_in_decile / people_in_decile

/-- Per-decile loser proportion of `compute_district_impacts`
(lines 541-557). -/
def district_loser_proportion (rows : List Household) (d : ℤ) : ℚ :=
  if (rows.filter (fun h => h.decile == d)).isEmpty then 0
  else
    let people_in_decile := masked_people_sum rows (fun h => h.decile == d)
    let losers_in_decile := masked_people_sum rows
      (fun h => h.decile == d && is_loser h)
    if people_in_decile = 0 ∧ losers_in_decile = 0 then 0
    else losers_in_decile / people_in_decile

/-- `winners_share = sum(winner_proportions) / 10`
(compute_impacts.py line 559), applied to a district's row subset. -/
def winners_share (rows : List Household) : ℚ :=
  (((List.range 10).map
      (fun i : ℕ => district_winner_proportion rows ((i : ℤ) + 1))).sum) / 10

/-- `losers_share = sum(loser_proportions) / 10`
(compute_impacts.py line 560). -/
def losers_share (rows : List Household) : ℚ :=
  (((List.range 10).map
      (fun i : ℕ => district_loser_proportion rows ((i : ℤ) + 1))).sum) / 10

/-- The group mask of one decile group in `compute_decile_impact`
(lines 430-447): the source first filters to `decile >= 0` and then groups
by the decile value, so group `d` holds the rows with `0 ≤ decile` and
`decile = d`. -/
def decile_group_mask (d : ℤ) (h : Household) : Bool :=
  decide (0 ≤ h.decile) && h.decile == d

/-- `relative[d]`: weighted sum of income change over weighted sum of
baseline income within decile group `d` (compute_impacts.py lines 437-441). -/
def decile_relative (rows : List Household) (d : ℤ) : ℚ :=
  masked_weighted_sum rows (decile_group_mask d)
      (fun h => h.reform_income - h.baseline_income)
    / masked_weighted_sum rows (decile_group_mask d) (fun h => h.baseline_income)

/-- `average[d]`: weighted sum of income change over the weighted count
(`MicroSeries.count()` is the sum of weights) within decile group `d`
(compute_impacts.py lines 443-447). -/
def decile_average (rows : List Household) (d : ℤ) : ℚ :=
  masked_weighted_sum rows (decile_group_mask d)
      (fun h => h.reform_income - h.baseline_income)
    / masked_weighted_sum rows (decile_group_mask d) (fun _ => 1)

/-- The decile keys present in the output of `compute_decile_impact`: a
pandas groupby produces exactly one group per decile value occurring in
the filtered (`decile >= 0`) data, and `format_decile_impact` passes the
keys through unchanged. -/
def decile_impact_keys (rows : List Household) : List ℤ :=
  ((rows.filter (fun h => decide (0 ≤ h.decile))).map (fun h => h.decile)).dedup

/-- One row of the person-level arrays used by `compute_poverty_impact`:
baseline/reform `person_in_poverty` (0/1), `person_weight`, `age`. -/
structure Person where
  in_poverty_baseline : ℚ
  in_poverty_reform : ℚ
  weight : ℚ
  age : ℚ
deriving DecidableEq

/-- Output of `format_poverty_impact` (db_schema.py lines 39-62). -/
structure PovertyImpact where
  baselineRate : ℚ
  reformRate : ℚ
  change : ℚ
  percentChange : ℚ
deriving DecidableEq

/-- `format_poverty_impact` (db_schema.py lines 39-62): change and
percent change, with `percentChange = 0` when `baseline_rate > 0` fails. -/
def format_poverty_impact (baseline_rate reform_rate : ℚ) : PovertyImpact :=
  { baselineRate := baseline_rate
    reformRate := reform_rate
    change := reform_rate - baseline_rate
    percentChange :=
      if 0 < baseline_rate then (reform_rate - baseline_rate) / baseline_rate * 100
      else 0 }

/-- Weighted mean of `f` over a person list, embedding the external
`microdf.MicroSeries.mean()` used at compute_impacts.py lines 337-341,
which delegates to `np.average(values, weights=weights)`; `np.average`
raises `ZeroDivisionError` when the weights sum to zero, modelled here as
`none`. -/
def micro_mean (ps : List Person) (f : Person → ℚ) : Option ℚ :=
  let total_weight := (ps.map (fun p => p.weight)).sum
  if total_weight = 0 then none
  else some ((ps.map (fun p => f p * p.weight)).sum / total_weight)

/-- `compute_poverty_impact` (compute_impacts.py lines 322-346): optionally
filter to `age < 18`, take the weighted mean of each poverty indicator,
format the rates; `none` when a mean raises. -/
def compute_poverty_impact (ps : List Person) (child_only : Bool) :
    Option PovertyImpact :=
  let selected := if child_only then ps.filter (fun p => decide (p.age < 18)) else ps
  match micro_mean selected (fun p => p.in_poverty_baseline),
        micro_mean selected (fun p => p.in_poverty_reform) with
  | some baseline_rate, some reform_rate =>
      some (format_poverty_impact baseline_rate reform_rate)
  | _, _ => none

/-- One row of the tax-unit-level arrays used by `compute_budgetary_impact`:
baseline/reform `state_income_tax` and the tax-unit weight. -/
structure TaxUnit where
  baseline_tax : ℚ
  reform_tax : ℚ
  weight : ℚ
deriving DecidableEq

/-- Output of `format_budgetary_impact` (db_schema.py lines 15-36). -/
structure BudgetaryImpact where
  stateRevenueImpact : ℚ
  netCost : ℚ
  households : ℤ
deriving DecidableEq

/-- Python `int(x)` on a float: truncation toward zero. -/
def py_int (q : ℚ) : ℤ :=
  if q < 0 then ⌈q⌉ else ⌊q⌋

/-- `format_budgetary_impact` (db_schema.py lines 15-36): `netCost`
defaults to the revenue impact. -/
def format_budgetary_impact (state_revenue_impact : ℚ) (net_cost : Option ℚ)
    (households : ℤ) : BudgetaryImpact :=
  { stateRevenueImpact := state_revenue_impact
    netCost := net_cost.getD state_revenue_impact
    households := households }

/-- `compute_budgetary_impact` (compute_impacts.py lines 300-319): weighted
revenue sums and `total_households = int(household_weight.values.sum())` —
the raw weight sum truncated by Python `int()`. -/
def compute_budgetary_impact (tax_units : List TaxUnit)
    (household_weights : List ℚ) : BudgetaryImpact :=
  let baseline_revenue := (tax_units.map (fun t => t.baseline_tax * t.weight)).sum
  let reform_revenue := (tax_units.map (fun t => t.reform_tax * t.weight)).sum
  format_budgetary_impact (reform_revenue - baseline_revenue) none
    (py_int household_weights.sum)

/-- Round half to even to an integer, the rounding mode of Python `round`. -/
def round_half_even (q : ℚ) : ℤ :=
  let f := ⌊q⌋
  if q - f < 1/2 then f
  else if 1/2 < q - f then f + 1
  else if Even f then f else f + 1

/-- Python `round(q, ndigits)` on exact values. -/
def py_round (q : ℚ) (ndigits : ℕ) : ℚ :=
  (round_half_even (q * 10 ^ ndigits) : ℚ) / 10 ^ ndigits

/-- Output of `format_district_impact` (db_schema.py lines 179-219). -/
structure DistrictRecord where
  districtName : String
  avgBenefit : ℚ
  householdsAffected : ℚ
  totalBenefit : ℚ
  winnersShare : ℚ
  losersShare : ℚ
  povertyPctChange : ℚ
  childPovertyPctChange : ℚ
deriving DecidableEq

/-- `format_district_impact` (db_schema.py lines 179-219): `total_benefit`
defaults to `avg_benefit * households_affected`, and every numeric field is
stored through Python `round` — whole numbers for the money fields, two
decimals for the share and percent fields. -/
def format_district_impact (district_id district_name : String)
    (avg_benefit : ℚ) (households_affected : ℤ) (total_benefit : Option ℚ)
    (winners_share_arg losers_share_arg poverty_pct_change
      child_poverty_pct_change : ℚ) : DistrictRecord :=
  let tb := total_benefit.getD (avg_benefit * households_affected)
  { districtName := district_name
    avgBenefit := py_round avg_benefit 0
    householdsAffected := py_round (households_affected : ℚ) 0
    totalBenefit := py_round tb 0
    winnersShare := py_round winners_share_arg 2
    losersShare := py_round losers_share_arg 2
    povertyPctChange := py_round poverty_pct_change 2
    childPovertyPctChange := py_round child_poverty_pct_change 2 }

/-- One year's payload stored into `impacts_by_year[str(year)]` by the
multi-year branch of `write_to_supabase` (compute_impacts.py
lines 688-696). -/
structure YearImpacts where
  budgetaryImpact : BudgetaryImpact
  povertyImpact : PovertyImpact
  childPovertyImpact : PovertyImpact
  winnersLosers : List (String × ℚ)
  decileImpact : List (ℤ × ℚ) × List (ℤ × ℚ)
  districtImpacts : Option (List (String × DistrictRecord))
  computedAt : String
deriving DecidableEq

/-- Python `dict` assignment `d[k] = v` on an association list: replace the
binding of `k` if present, otherwise append it. Keys are the years
(Python uses `str(analysis_year)`; `str` is injective on years, so the
year itself is used as the key here). -/
def dict_set : List (ℕ × YearImpacts) → ℕ → YearImpacts → List (ℕ × YearImpacts)
  | [], year, v => [(year, v)]
  | (k, w) :: rest, year, v =>
      if k = year then (year, v) :: rest else (k, w) :: dict_set rest year v

/-- Python `dict` lookup `d.get(k)` on an association list. -/
def dict_get : List (ℕ × YearImpacts) → ℕ → Option YearImpacts
  | [], _ => none
  | (k, w) :: rest, year => if k = year then some w else dict_get rest year

/-- `model_notes` as manipulated by the multi-year branch of
`write_to_supabase`: the most recent analysis year plus the per-year
archive. -/
structure ModelNotes where
  analysis_year : ℕ
  impacts_by_year : List (ℕ × YearImpacts)
deriving DecidableEq

/-- The multi-year merge of `write_to_supabase` (compute_impacts.py
lines 683-703): preserve the existing `impacts_by_year`, set this year's
entry, record the new analysis year. -/
def write_multi_year_notes (existing : ModelNotes) (analysis_year : ℕ)
    (year_impacts : YearImpacts) : ModelNotes :=
  { analysis_year := analysis_year
    impacts_by_year := dict_set existing.impacts_by_year analysis_year year_impacts }

/-- The spec's end-to-end scenario: baseline income `[100, 1000]`, reform
income `[105, 950]`, weights `[1, 1]`, count-of-people `[1, 1]`,
deciles `[1, 10]`. -/
def scenario_rows : List Household :=
  [⟨100, 105, 1, 1, 1⟩, ⟨1000, 950, 1, 1, 10⟩]

/-- Ten unit-weight households, one in each decile, with no income change. -/
def all_deciles_rows : List Household :=
  [⟨100, 100, 1, 1, 1⟩, ⟨100, 100, 1, 1, 2⟩, ⟨100, 100, 1, 1, 3⟩,
   ⟨100, 100, 1, 1, 4⟩, ⟨100, 100, 1, 1, 5⟩, ⟨100, 100, 1, 1, 6⟩,
   ⟨100, 100, 1, 1, 7⟩, ⟨100, 100, 1, 1, 8⟩, ⟨100, 100, 1, 1, 9⟩,
   ⟨100, 100, 1, 1, 10⟩]

/-- A one-element year archive holding a sample 2026 record. -/
def sample_year_impacts : YearImpacts :=
  { budgetaryImpact := format_budgetary_impact 0 none 0
    povertyImpact := format_poverty_impact 0 0
    childPovertyImpact := format_poverty_impact 0 0
    winnersLosers := []
    decileImpact := ([], [])
    districtImpacts := none
    computedAt := "2026-01-01T00:00:00" }

/-- A second sample record, stored for 2027. -/
def sample_year_impacts_b : YearImpacts :=
  { budgetaryImpact := format_budgetary_impact 1 none 1
    povertyImpact := format_poverty_impact 0 0
    childPovertyImpact := format_poverty_impact 0 0
    winnersLosers := []
    decileImpact := ([], [])
    districtImpacts := none
    computedAt := "2027-01-01T00:00:00" }

/-! ### Helper lemmas about masked weighted sums -/

theorem masked_weighted_sum_nil (mask : Household → Bool) (f : Household → ℚ) :
    masked_weighted_sum [] mask f = 0 := rfl

theorem masked_weighted_sum_cons (h : Household) (t : List Household)
    (mask : Household → Bool) (f : Household → ℚ) :
    masked_weighted_sum (h :: t) mask f =
      (if mask h then f h * h.weight else 0) + masked_weighted_sum t mask f := by
  by_cases hm : mask h <;>
    simp [masked_weighted_sum, List.filter_cons, hm]

theorem masked_weighted_sum_congr (rows : List Household)
    (m₁ m₂ : Household → Bool) (f : Household → ℚ)
    (hm : ∀ h, m₁ h = m₂ h) :
    masked_weighted_sum rows m₁ f = masked_weighted_sum rows m₂ f := by
  unfold masked_weighted_sum
  rw [List.filter_congr (fun h _ => hm h)]

theorem masked_weighted_sum_eq_zero_of_false (rows : List Household)
    (m : Household → Bool) (f : Household → ℚ)
    (hm : ∀ h ∈ rows, m h = false) :
    masked_weighted_sum rows m f = 0 := by
  induction rows with
  | nil => rfl
  | cons h t ih =>
      rw [masked_weighted_sum_cons, hm h (List.mem_cons_self h t)]
      simp only [Bool.false_eq_true, if_false, zero_add]
      exact ih fun x hx => hm x (List.mem_cons_of_mem h hx)

theorem masked_weighted_sum_nonneg (rows : List Household)
    (m : Household → Bool) (f : Household → ℚ)
    (hf : ∀ h ∈ rows, 0 ≤ f h * h.weight) :
    0 ≤ masked_weighted_sum rows m f := by
  induction rows with
  | nil => exact le_refl 0
  | cons h t ih =>
      rw [masked_weighted_sum_cons]
      have h1 : 0 ≤ if m h then f h * h.weight else 0 := by
        split
        · exact hf h (List.mem_cons_self h t)
        · exact le_refl 0
      have h2 := ih fun x hx => hf x (List.mem_cons_of_mem h hx)
      linarith

theorem masked_weighted_sum_and_le (rows : List Household)
    (m q : Household → Bool) (f : Household → ℚ)
    (hf : ∀ h ∈ rows, 0 ≤ f h * h.weight) :
    masked_weighted_sum rows (fun h => m h && q h) f ≤ masked_weighted_sum rows m f := by
  induction rows with
  | nil => exact le_refl 0
  | cons h t ih =>
      rw [masked_weighted_sum_cons, masked_weighted_sum_cons]
      have hht := ih fun x hx => hf x (List.mem_cons_of_mem h hx)
      have hh0 := hf h (List.mem_cons_self h t)
      cases hm : m h <;> cases hq : q h <;> simp [hm, hq] <;> linarith

theorem masked_weighted_sum_and_eq_zero (rows : List Household)
    (m q : Household → Bool) (f : Household → ℚ)
    (hf : ∀ h ∈ rows, 0 ≤ f h * h.weight)
    (h0 : masked_weighted_sum rows m f = 0) :
    masked_weighted_sum rows (fun h => m h && q h) f = 0 := by
  have hle := masked_weighted_sum_and_le rows m q f hf
  have hge := masked_weighted_sum_nonneg rows (fun h => m h && q h) f hf
  linarith

theorem masked_weighted_sum_split (rows : List Household)
    (m q₁ q₂ : Household → Bool) (f : Household → ℚ)
    (hdisj : ∀ h, ¬(q₁ h = true ∧ q₂ h = true)) :
    masked_weighted_sum rows (fun h => m h && (q₁ h || q₂ h)) f =
      masked_weighted_sum rows (fun h => m h && q₁ h) f
        + masked_weighted_sum rows (fun h => m h && q₂ h) f := by
  induction rows with
  | nil => simp [masked_weighted_sum_nil]
  | cons h t ih =>
      rw [masked_weighted_sum_cons, masked_weighted_sum_cons,
        masked_weighted_sum_cons, ih]
      by_cases h1 : q₁ h
      · by_cases h2 : q₂ h
        · exact absurd ⟨h1, h2⟩ (hdisj h)
        · cases hm : m h <;> simp [hm, h1, h2] <;> ring
      · cases hm : m h <;> simp [hm, h1] <;> ring

theorem filter_filter_of_imp (rows : List Household) (keep m : Household → Bool)
    (himp : ∀ h, m h = true → keep h = true) :
    (rows.filter keep).filter m = rows.filter m := by
  induction rows with
  | nil => rfl
  | cons h t ih =>
      by_cases hk : keep h
      · simp [List.filter_cons, hk, ih]
      · have hm : m h = false := by
          cases hmh : m h
          · rfl
          · exact absurd (himp h hmh) hk
        simp [List.filter_cons, hk, hm, ih]

theorem masked_weighted_sum_filter (rows : List Household)
    (keep m : Household → Bool) (f : Household → ℚ)
    (himp : ∀ h, m h = true → keep h = true) :
    masked_weighted_sum (rows.filter keep) m f = masked_weighted_sum rows m f := by
  unfold masked_weighted_sum
  rw [filter_filter_of_imp rows keep m himp]

/-! ### Bucket structure lemmas -/

theorem in_bucket_some_some (lo hi x : ℚ) :
    in_bucket (some lo) (some hi) x = true ↔ (lo < x ∧ x ≤ hi) := by
  simp [in_bucket]

theorem in_bucket_none_some (hi x : ℚ) :
    in_bucket none (some hi) x = true ↔ x ≤ hi := by
  simp [in_bucket]

theorem in_bucket_some_none (lo x : ℚ) :
    in_bucket (some lo) none x = true ↔ lo < x := by
  simp [in_bucket]

theorem in_bucket_some_some_eq_false (lo hi x : ℚ) (hx : x ≤ lo ∨ hi < x) :
    in_bucket (some lo) (some hi) x = false := by
  refine Bool.eq_false_iff.mpr fun hc => ?_
  rw [in_bucket_some_some] at hc
  rcases hx with hx | hx <;> linarith [hc.1, hc.2]

theorem in_bucket_none_some_eq_false (hi x : ℚ) (hx : hi < x) :
    in_bucket none (some hi) x = false := by
  refine Bool.eq_false_iff.mpr fun hc => ?_
  rw [in_bucket_none_some] at hc
  linarith

theorem in_bucket_some_none_eq_false (lo x : ℚ) (hx : x ≤ lo) :
    in_bucket (some lo) none x = false := by
  refine Bool.eq_false_iff.mpr fun hc => ?_
  rw [in_bucket_some_none] at hc
  linarith

theorem winner_bucket_union (x : ℚ) :
    decide (GAIN_LESS_5PCT_THRESHOLD < x) =
      (in_bucket (some (1/1000)) (some (1/20)) x || in_bucket (some (1/20)) none x) := by
  rw [Bool.eq_iff_iff]
  simp only [decide_eq_true_eq, Bool.or_eq_true, in_bucket_some_some, in_bucket_some_none,
    GAIN_LESS_5PCT_THRESHOLD]
  constructor
  · intro hx
    rcases le_or_lt x (1/20) with h | h
    · exact Or.inl ⟨hx, h⟩
    · exact Or.inr h
  · rintro (⟨hx, _⟩ | hx) <;> linarith

theorem loser_bucket_union (x : ℚ) :
    decide (x ≤ NO_CHANGE_THRESHOLD) =
      (in_bucket none (some (-(1/20))) x || in_bucket (some (-(1/20))) (some (-(1/1000))) x) := by
  rw [Bool.eq_iff_iff]
  simp only [decide_eq_true_eq, Bool.or_eq_true, in_bucket_some_some, in_bucket_none_some,
    NO_CHANGE_THRESHOLD]
  constructor
  · intro hx
    rcases le_or_lt x (-(1/20)) with h | h
    · exact Or.inl h
    · exact Or.inr ⟨h, hx⟩
  · rintro (hx | ⟨_, hx⟩) <;> linarith

theorem winner_buckets_disjoint (h : Household) :
    ¬(in_bucket (some (1/1000)) (some (1/20)) (income_change h) = true ∧
      in_bucket (some (1/20)) none (income_change h) = true) := by
  rintro ⟨ha, hb⟩
  rw [in_bucket_some_some] at ha
  rw [in_bucket_some_none] at hb
  linarith [ha.2]

theorem loser_buckets_disjoint (h : Household) :
    ¬(in_bucket none (some (-(1/20))) (income_change h) = true ∧
      in_bucket (some (-(1/20))) (some (-(1/1000))) (income_change h) = true) := by
  rintro ⟨ha, hb⟩
  rw [in_bucket_none_some] at ha
  rw [in_bucket_some_some] at hb
  linarith [hb.1]

/-- Every relative-change value lies in exactly one of the five buckets, so
the five per-decile numerators add up to the whole decile's people sum. -/
theorem bucket_partition (rows : List Household) (m : Household → Bool)
    (f : Household → ℚ) :
    masked_weighted_sum rows (fun h => m h && in_bucket none (some (-(1/20))) (income_change h)) f
      + masked_weighted_sum rows (fun h => m h && in_bucket (some (-(1/20))) (some (-(1/1000))) (income_change h)) f
      + masked_weighted_sum rows (fun h => m h && in_bucket (some (-(1/1000))) (some (1/1000)) (income_change h)) f
      + masked_weighted_sum rows (fun h => m h && in_bucket (some (1/1000)) (some (1/20)) (income_change h)) f
      + masked_weighted_sum rows (fun h => m h && in_bucket (some (1/20)) none (income_change h)) f
    = masked_weighted_sum rows m f := by
  induction rows with
  | nil => simp [masked_weighted_sum_nil]
  | cons h t ih =>
      rw [masked_weighted_sum_cons, masked_weighted_sum_cons,
        masked_weighted_sum_cons, masked_weighted_sum_cons,
        masked_weighted_sum_cons, masked_weighted_sum_cons]
      by_cases hm : m h
      · rcases le_or_lt (income_change h) (-(1/20)) with h1 | h1
        · have e1 := (in_bucket_none_some (-(1/20)) (income_change h)).mpr h1
          have e2 := in_bucket_some_some_eq_false (-(1/20)) (-(1/1000)) (income_change h) (Or.inl h1)
          have e3 := in_bucket_some_some_eq_false (-(1/1000)) (1/1000) (income_change h) (Or.inl (by linarith))
          have e4 := in_bucket_some_some_eq_false (1/1000) (1/20) (income_change h) (Or.inl (by linarith))
          have e5 := in_bucket_some_none_eq_false (1/20) (income_change h) (by linarith)
          simp only [hm, e1, e2, e3, e4, e5, Bool.true_and, Bool.and_false,
            Bool.and_true, if_true, Bool.false_eq_true, if_false]
          linarith [ih]
        · rcases le_or_lt (income_change h) (-(1/1000)) with h2 | h2
          · have e1 := in_bucket_none_some_eq_false (-(1/20)) (income_change h) h1
            have e2 := (in_bucket_some_some (-(1/20)) (-(1/1000)) (income_change h)).mpr ⟨h1, h2⟩
            have e3 := in_bucket_some_some_eq_false (-(1/1000)) (1/1000) (income_change h) (Or.inl h2)
            have e4 := in_bucket_some_some_eq_false (1/1000) (1/20) (income_change h) (Or.inl (by linarith))
            have e5 := in_bucket_some_none_eq_false (1/20) (income_change h) (by linarith)
            simp only [hm, e1, e2, e3, e4, e5, Bool.true_and, Bool.and_false,
              Bool.and_true, if_true, Bool.false_eq_true, if_false]
            linarith [ih]
          · rcases le_or_lt (income_change h) (1/1000) with h3 | h3
            · have e1 := in_bucket_none_some_eq_false (-(1/20)) (income_change h) h1
              have e2 := in_bucket_some_some_eq_false (-(1/20)) (-(1/1000)) (income_change h) (Or.inr h2)
              have e3 := (in_bucket_some_some (-(1/1000)) (1/1000) (income_change h)).mpr ⟨h2, h3⟩
              have e4 := in_bucket_some_some_eq_false (1/1000) (1/20) (income_change h) (Or.inl h3)
              have e5 := in_bucket_some_none_eq_false (1/20) (income_change h) (by linarith)
              simp only [hm, e1, e2, e3, e4, e5, Bool.true_and, Bool.and_false,
                Bool.and_true, if_true, Bool.false_eq_true, if_false]
              linarith [ih]
            · rcases le_or_lt (income_change h) (1/20) with h4 | h4
              · have e1 := in_bucket_none_some_eq_false (-(1/20)) (income_change h) h1
                have e2 := in_bucket_some_some_eq_false (-(1/20)) (-(1/1000)) (income_change h) (Or.inr h2)
                have e3 := in_bucket_some_some_eq_false (-(1/1000)) (1/1000) (income_change h) (Or.inr h3)
                have e4 := (in_bucket_some_some (1/1000) (1/20) (income_change h)).mpr ⟨h3, h4⟩
                have e5 := in_bucket_some_none_eq_false (1/20) (income_change h) h4
                simp only [hm, e1, e2, e3, e4, e5, Bool.true_and, Bool.and_false,
                  Bool.and_true, if_true, Bool.false_eq_true, if_false]
                linarith [ih]
              · have e1 := in_bucket_none_some_eq_false (-(1/20)) (income_change h) h1
                have e2 := in_bucket_some_some_eq_false (-(1/20)) (-(1/1000)) (income_change h) (Or.inr h2)
                have e3 := in_bucket_some_some_eq_false (-(1/1000)) (1/1000) (income_change h) (Or.inr h3)
                have e4 := in_bucket_some_some_eq_false (1/1000) (1/20) (income_change h) (Or.inr h4)
                have e5 := (in_bucket_some_none (1/20) (income_change h)).mpr h4
                simp only [hm, e1, e2, e3, e4, e5, Bool.true_and, Bool.and_false,
                  Bool.and_true, if_true, Bool.false_eq_true, if_false]
                linarith [ih]
      · have hm' : m h = false := by simpa using hm
        simp only [hm', Bool.false_and, Bool.false_eq_true, if_false]
        linarith [ih]

theorem bucket_proportion_of_zero_people (rows : List Household) (d : ℤ)
    (lower upper : Option ℚ)
    (hw : ∀ h ∈ rows, 0 ≤ h.weight ∧ 0 ≤ h.count_people)
    (h0 : masked_people_sum rows (fun h => h.decile == d) = 0) :
    bucket_proportion rows d lower upper = 0 := by
  have hboth : masked_people_sum rows
      (fun h => h.decile == d && in_bucket lower upper (income_change h)) = 0 :=
    masked_weighted_sum_and_eq_zero rows (fun h => h.decile == d)
      (fun h => in_bucket lower upper (income_change h)) (fun h => h.count_people)
      (fun h hh => mul_nonneg (hw h hh).2 (hw h hh).1) h0
  simp [bucket_proportion, h0, hboth]

theorem bucket_proportion_of_people_ne_zero (rows : List Household) (d : ℤ)
    (lower upper : Option ℚ)
    (h0 : masked_people_sum rows (fun h => h.decile == d) ≠ 0) :
    bucket_proportion rows d lower upper =
      masked_people_sum rows
          (fun h => h.decile == d && in_bucket lower upper (income_change h))
        / masked_people_sum rows (fun h => h.decile == d) := by
  simp [bucket_proportion, h0]

theorem district_winner_eq_buckets (rows : List Household) (d : ℤ)
    (hw : ∀ h ∈ rows, 0 ≤ h.weight ∧ 0 ≤ h.count_people) :
    district_winner_proportion rows d
      = bucket_proportion rows d (some (1/1000)) (some (1/20))
        + bucket_proportion rows d (some (1/20)) none := by
  have hfnn : ∀ h ∈ rows, 0 ≤ (fun h : Household => h.count_people) h * h.weight :=
    fun h hh => mul_nonneg (hw h hh).2 (hw h hh).1
  have hsplit : masked_people_sum rows (fun h => h.decile == d && is_winner h)
      = masked_people_sum rows
          (fun h => h.decile == d && in_bucket (some (1/1000)) (some (1/20)) (income_change h))
        + masked_people_sum rows
            (fun h => h.decile == d && in_bucket (some (1/20)) none (income_change h)) := by
    unfold masked_people_sum
    rw [masked_weighted_sum_congr rows _
      (fun h => h.decile == d &&
        (in_bucket (some (1/1000)) (some (1/20)) (income_change h)
          || in_bucket (some (1/20)) none (income_change h))) _
      (fun h => by rw [is_winner, winner_bucket_union])]
    exact masked_weighted_sum_split rows _ _ _ _ winner_buckets_disjoint
  by_cases hempty : (rows.filter (fun h => h.decile == d)).isEmpty
  · have hnil : rows.filter (fun h => h.decile == d) = [] := List.isEmpty_iff.mp hempty
    have hallf : ∀ h ∈ rows, (fun h : Household => h.decile == d) h = false := by
      intro h hh
      simpa using (List.filter_eq_nil_iff.mp hnil) h hh
    have h0 : masked_people_sum rows (fun h => h.decile == d) = 0 :=
      masked_weighted_sum_eq_zero_of_false rows _ _ hallf
    rw [bucket_proportion_of_zero_people rows d _ _ hw h0,
      bucket_proportion_of_zero_people rows d _ _ hw h0]
    simp [district_winner_proportion, hempty]
  · by_cases h0 : masked_people_sum rows (fun h => h.decile == d) = 0
    · have hwin0 : masked_people_sum rows (fun h => h.decile == d && is_winner h) = 0 :=
        masked_weighted_sum_and_eq_zero rows _ _ _ hfnn h0
      rw [bucket_proportion_of_zero_people rows d _ _ hw h0,
        bucket_proportion_of_zero_people rows d _ _ hw h0]
      simp [district_winner_proportion, hempty, h0, hwin0]
    · have hd : district_winner_proportion rows d
          = masked_people_sum rows (fun h => h.decile == d && is_winner h)
            / masked_people_sum rows (fun h => h.decile == d) := by
        simp [district_winner_proportion, hempty, h0]
      rw [hd, hsplit, bucket_proportion_of_people_ne_zero rows d _ _ h0,
        bucket_proportion_of_people_ne_zero rows d _ _ h0, div_add_div_same]

theorem district_loser_eq_buckets (rows : List Household) (d : ℤ)
    (hw : ∀ h ∈ rows, 0 ≤ h.weight ∧ 0 ≤ h.count_people) :
    district_loser_proportion rows d
      = bucket_proportion rows d (some (-(1/20))) (some (-(1/1000)))
        + bucket_proportion rows d none (some (-(1/20))) := by
  have hfnn : ∀ h ∈ rows, 0 ≤ (fun h : Household => h.count_people) h * h.weight :=
    fun h hh => mul_nonneg (hw h hh).2 (hw h hh).1
  have hsplit : masked_people_sum rows (fun h => h.decile == d && is_loser h)
      = masked_people_sum rows
          (fun h => h.decile == d && in_bucket none (some (-(1/20))) (income_change h))
        + masked_people_sum rows
            (fun h => h.decile == d && in_bucket (some (-(1/20))) (some (-(1/1000))) (income_change h)) := by
    unfold masked_people_sum
    rw [masked_weighted_sum_congr rows _
      (fun h => h.decile == d &&
        (in_bucket none (some (-(1/20))) (income_change h)
          || in_bucket (some (-(1/20))) (some (-(1/1000))) (income_change h))) _
      (fun h => by rw [is_loser, loser_bucket_union])]
    exact masked_weighted_sum_split rows _ _ _ _ loser_buckets_disjoint
  by_cases hempty : (rows.filter (fun h => h.decile == d)).isEmpty
  · have hnil : rows.filter (fun h => h.decile == d) = [] := List.isEmpty_iff.mp hempty
    have hallf : ∀ h ∈ rows, (fun h : Household => h.decile == d) h = false := by
      intro h hh
      simpa using (List.filter_eq_nil_iff.mp hnil) h hh
    have h0 : masked_people_sum rows (fun h => h.decile == d) = 0 :=
      masked_weighted_sum_eq_zero_of_false rows _ _ hallf
    rw [bucket_proportion_of_zero_people rows d _ _ hw h0,
      bucket_proportion_of_zero_people rows d _ _ hw h0]
    simp [district_loser_proportion, hempty]
  · by_cases h0 : masked_people_sum rows (fun h => h.decile == d) = 0
    · have hlose0 : masked_people_sum rows (fun h => h.decile == d && is_loser h) = 0 :=
        masked_weighted_sum_and_eq_zero rows _ _ _ hfnn h0
      rw [bucket_proportion_of_zero_people rows d _ _ hw h0,
        bucket_proportion_of_zero_people rows d _ _ hw h0]
      simp [district_loser_proportion, hempty, h0, hlose0]
    · have hd : district_loser_proportion rows d
          = masked_people_sum rows (fun h => h.decile == d && is_loser h)
            / masked_people_sum rows (fun h => h.decile == d) := by
        simp [district_loser_proportion, hempty, h0]
      rw [hd, hsplit, bucket_proportion_of_people_ne_zero rows d _ _ h0,
        bucket_proportion_of_people_ne_zero rows d _ _ h0, div_add_div_same, add_comm]

/-- Within one decile the five bucket proportions total 1 when the decile
holds a nonzero weighted people count and 0 otherwise. -/
theorem bucket_proportions_total (rows : List Household) (d : ℤ)
    (hw : ∀ h ∈ rows, 0 ≤ h.weight ∧ 0 ≤ h.count_people) :
    bucket_proportion rows d none (some (-(1/20)))
      + bucket_proportion rows d (some (-(1/20))) (some (-(1/1000)))
      + bucket_proportion rows d (some (-(1/1000))) (some (1/1000))
      + bucket_proportion rows d (some (1/1000)) (some (1/20))
      + bucket_proportion rows d (some (1/20)) none
    = if masked_people_sum rows (fun h => h.decile == d) = 0 then 0 else 1 := by
  by_cases h0 : masked_people_sum rows (fun h => h.decile == d) = 0
  · rw [bucket_proportion_of_zero_people rows d _ _ hw h0,
      bucket_proportion_of_zero_people rows d _ _ hw h0,
      bucket_proportion_of_zero_people rows d _ _ hw h0,
      bucket_proportion_of_zero_people rows d _ _ hw h0,
      bucket_proportion_of_zero_people rows d _ _ hw h0]
    simp [h0]
  · rw [bucket_proportion_of_people_ne_zero rows d _ _ h0,
      bucket_proportion_of_people_ne_zero rows d _ _ h0,
      bucket_proportion_of_people_ne_zero rows d _ _ h0,
      bucket_proportion_of_people_ne_zero rows d _ _ h0,
      bucket_proportion_of_people_ne_zero rows d _ _ h0,
      div_add_div_same, div_add_div_same, div_add_div_same, div_add_div_same]
    have hpart := bucket_partition rows (fun h => h.decile == d) (fun h => h.count_people)
    unfold masked_people_sum at h0 ⊢
    rw [hpart, if_neg h0]
    exact div_self h0

theorem sum_map_ite_zero_one (l : List ℕ) (p : ℕ → Prop) [DecidablePred p] :
    (l.map (fun i => if p i then (0:ℚ) else 1)).sum
      = ((l.filter (fun i => !(decide (p i)))).length : ℚ) := by
  induction l with
  | nil => simp
  | cons a t ih =>
      by_cases hp : p a
      · simp [List.filter_cons, hp, ih]
      · simp only [List.map_cons, List.sum_cons, List.filter_cons, hp, if_false,
          decide_eq_true_eq, Bool.not_eq_true']
        rw [ih]
        simp [hp]
        push_cast
        ring

/-! ### Claim theorems -/

/-- C1 (counterexample): on the spec scenario the code's relative-change
formula does NOT produce `[0.05, -0.05]`, and the decile-1 household is not
in the 'Gain less than 5%' bucket (nor the decile-10 household in
'Lose less than 5%'). -/
theorem winners_losers_scenario_refuted :
    ¬(relative_change 100 105 = 1/20 ∧ relative_change 1000 950 = -(1/20))
  ∧ bucket_proportion scenario_rows 1 (some (1/1000)) (some (1/20)) = 0
  ∧ bucket_proportion scenario_rows 10 (some (-(1/20))) (some (-(1/1000))) = 0 := by
  refine ⟨fun hc => ?_, ?_, ?_⟩
  · have h1 := hc.1
    rw [show relative_change 100 105 = 1/10 by norm_num [relative_change, max_def]] at h1
    norm_num at h1
  · norm_num [scenario_rows, bucket_proportion, masked_people_sum, masked_weighted_sum,
      income_change, relative_change, in_bucket, max_def]
  · norm_num [scenario_rows, bucket_proportion, masked_people_sum, masked_weighted_sum,
      income_change, relative_change, in_bucket, max_def]

/-- C1 (amended): on the spec scenario the relative changes are
`[0.10, -0.10]`; the decile-1 household falls in 'Gain more than 5%' and
the decile-10 household in 'Lose more than 5%' under the
`lower < x <= upper` bucket semantics. -/
theorem winners_losers_scenario :
    relative_change 100 105 = 1/10
  ∧ relative_change 1000 950 = -(1/10)
  ∧ in_bucket (some (1/20)) none (relative_change 100 105) = true
  ∧ in_bucket none (some (-(1/20))) (relative_change 1000 950) = true
  ∧ bucket_proportion scenario_rows 1 (some (1/20)) none = 1
  ∧ bucket_proportion scenario_rows 10 none (some (-(1/20))) = 1
  ∧ gain_more_5pct scenario_rows = 1/10
  ∧ lose_more_5pct scenario_rows = 1/10 := by
  refine ⟨?_, ?_, ?_, ?_, ?_, ?_, ?_, ?_⟩ <;>
    norm_num [scenario_rows, bucket_proportion, masked_people_sum, masked_weighted_sum,
      income_change, relative_change, in_bucket, gain_more_5pct, lose_more_5pct,
      bucket_average, List.range_succ, max_def]

/-- C2 (counterexample): a non-empty input with people only in decile 1
has bucket fractions summing to 1/10, not 1.0 within 1e-9: each empty
decile contributes 0 to every bucket, so the five aggregates cannot sum
to 1. -/
theorem bucket_fractions_sum_refuted :
    gain_more_5pct [⟨100, 105, 1, 1, 1⟩] + gain_less_5pct [⟨100, 105, 1, 1, 1⟩]
      + no_change_share [⟨100, 105, 1, 1, 1⟩] + lose_less_5pct [⟨100, 105, 1, 1, 1⟩]
      + lose_more_5pct [⟨100, 105, 1, 1, 1⟩] = 1/10
  ∧ ¬(|(1:ℚ)/10 - 1| ≤ 1/1000000000) := by
  constructor
  · norm_num [gain_more_5pct, gain_less_5pct, no_change_share, lose_less_5pct,
      lose_more_5pct, bucket_average, bucket_proportion, masked_people_sum,
      masked_weighted_sum, income_change, relative_change, in_bucket,
      List.range_succ, max_def]
  · rw [show |(1:ℚ)/10 - 1| = 9/10 by norm_num [abs_of_nonpos]]
    norm_num

/-- C2 (amended): for nonnegative weights and people counts, the five
winners/losers aggregates sum to `k/10` where `k` is the number of deciles
1..10 whose weighted people count is nonzero — 1.0 exactly when all ten
deciles are populated; an empty decile contributes 0 to every bucket. -/
theorem bucket_fractions_sum (rows : List Household)
    (hw : ∀ h ∈ rows, 0 ≤ h.weight ∧ 0 ≤ h.count_people) :
    gain_more_5pct rows + gain_less_5pct rows + no_change_share rows
      + lose_less_5pct rows + lose_more_5pct rows
    = (((List.range 10).filter
        (fun i : ℕ => !(decide (masked_people_sum rows
          (fun h => h.decile == ((i : ℤ) + 1)) = 0)))).length : ℚ) / 10 := by
  unfold gain_more_5pct gain_less_5pct no_change_share lose_less_5pct lose_more_5pct
    bucket_average
  rw [div_add_div_same, div_add_div_same, div_add_div_same, div_add_div_same]
  congr 1
  rw [← List.sum_map_add, ← List.sum_map_add, ← List.sum_map_add, ← List.sum_map_add,
    ← sum_map_ite_zero_one (List.range 10)
      (fun i => masked_people_sum rows (fun h => h.decile == ((i : ℤ) + 1)) = 0)]
  refine congrArg List.sum (List.map_congr_left fun i _ => ?_)
  have htot := bucket_proportions_total rows ((i : ℤ) + 1) hw
  linarith [htot]

/-- C2 (witness): for ten unit-weight households covering all deciles the
hypotheses hold and the aggregates sum to 10/10. -/
theorem bucket_fractions_sum_check :
    (∀ h ∈ all_deciles_rows, 0 ≤ h.weight ∧ 0 ≤ h.count_people)
  ∧ gain_more_5pct all_deciles_rows + gain_less_5pct all_deciles_rows
      + no_change_share all_deciles_rows + lose_less_5pct all_deciles_rows
      + lose_more_5pct all_deciles_rows
    = (((List.range 10).filter
        (fun i : ℕ => !(decide (masked_people_sum all_deciles_rows
          (fun h => h.decile == ((i : ℤ) + 1)) = 0)))).length : ℚ) / 10 :=
  ⟨by intro h hh; fin_cases hh <;> norm_num [all_deciles_rows],
    bucket_fractions_sum all_deciles_rows
      (by intro h hh; fin_cases hh <;> norm_num [all_deciles_rows])⟩

/-- C4: for every row subset (with nonnegative weights and people counts),
the district winners share equals the sum of the two gaining state-wide
aggregates computed on the same rows, and the losers share equals the sum
of the two losing aggregates. -/
theorem district_shares_match_statewide (rows : List Household)
    (hw : ∀ h ∈ rows, 0 ≤ h.weight ∧ 0 ≤ h.count_people) :
    winners_share rows = gain_less_5pct rows + gain_more_5pct rows
  ∧ losers_share rows = lose_less_5pct rows + lose_more_5pct rows := by
  constructor
  · unfold winners_share gain_less_5pct gain_more_5pct bucket_average
    rw [div_add_div_same]
    congr 1
    rw [← List.sum_map_add]
    exact congrArg List.sum (List.map_congr_left fun i _ =>
      district_winner_eq_buckets rows ((i : ℤ) + 1) hw)
  · unfold losers_share lose_less_5pct lose_more_5pct bucket_average
    rw [div_add_div_same]
    congr 1
    rw [← List.sum_map_add]
    exact congrArg List.sum (List.map_congr_left fun i _ =>
      district_loser_eq_buckets rows ((i : ℤ) + 1) hw)

/-- C4 (witness): the equality evaluated on the spec scenario rows. -/
theorem district_shares_match_statewide_check :
    (∀ h ∈ scenario_rows, 0 ≤ h.weight ∧ 0 ≤ h.count_people)
  ∧ (winners_share scenario_rows
      = gain_less_5pct scenario_rows + gain_more_5pct scenario_rows
    ∧ losers_share scenario_rows
      = lose_less_5pct scenario_rows + lose_more_5pct scenario_rows) :=
  ⟨by intro h hh; fin_cases hh <;> norm_num [scenario_rows],
    district_shares_match_statewide scenario_rows
      (by intro h hh; fin_cases hh <;> norm_num [scenario_rows])⟩

/-- C8: for fixed baseline at least 1 the capped relative-change formula is
strictly increasing in the reform value. -/
theorem relative_change_strict_mono (b r₁ r₂ : ℚ) (hb : 1 ≤ b) (hr : r₁ < r₂) :
    relative_change b r₁ < relative_change b r₂ := by
  have hbmax : max b 1 = b := max_eq_left hb
  have hbpos : (0 : ℚ) < b := lt_of_lt_of_le one_pos hb
  simp only [relative_change, hbmax]
  refine (div_lt_div_iff_of_pos_right hbpos).mpr ?_
  have hmax : max r₁ 1 ≤ max r₂ 1 := max_le_max (le_of_lt hr) le_rfl
  linarith

/-- C8 (witness): the monotonicity applied at baseline 1, reform 0 < 1. -/
theorem relative_change_strict_mono_check :
    (1 : ℚ) ≤ 1 ∧ (0 : ℚ) < 1 ∧ relative_change 1 0 < relative_change 1 1 :=
  ⟨le_refl 1, by norm_num, relative_change_strict_mono 1 0 1 (le_refl 1) (by norm_num)⟩

theorem decile_mask_imp_keep (d : ℤ) (hd : 1 ≤ d) :
    ∀ h : Household, ((h.decile == d) = true) → (decide (1 ≤ h.decile)) = true := by
  intro h hh
  have h2 : h.decile = d := by simpa using hh
  rw [h2]
  exact decide_eq_true hd

theorem decile_group_mask_imp_keep (d : ℤ) (hd : 1 ≤ d) :
    ∀ h : Household, decile_group_mask d h = true → (decide (1 ≤ h.decile)) = true := by
  intro h hh
  rw [decile_group_mask, Bool.and_eq_true] at hh
  exact decile_mask_imp_keep d hd h hh.2

theorem one_le_cast_succ (i : ℕ) : (1 : ℤ) ≤ (i : ℤ) + 1 := by
  have : (0 : ℤ) ≤ (i : ℤ) := Int.natCast_nonneg i
  linarith

theorem bucket_proportion_drop_sentinel (rows : List Household) (d : ℤ)
    (hd : 1 ≤ d) (lower upper : Option ℚ) :
    bucket_proportion (rows.filter (fun h => decide (1 ≤ h.decile))) d lower upper
      = bucket_proportion rows d lower upper := by
  unfold bucket_proportion masked_people_sum
  rw [masked_weighted_sum_filter rows _ _ _ (decile_mask_imp_keep d hd),
    masked_weighted_sum_filter rows _ _ _
      (fun h hh => decile_mask_imp_keep d hd h (by rw [Bool.and_eq_true] at hh; exact hh.1))]

theorem district_winner_drop_sentinel (rows : List Household) (d : ℤ) (hd : 1 ≤ d) :
    district_winner_proportion (rows.filter (fun h => decide (1 ≤ h.decile))) d
      = district_winner_proportion rows d := by
  unfold district_winner_proportion masked_people_sum
  rw [filter_filter_of_imp rows _ _ (decile_mask_imp_keep d hd),
    masked_weighted_sum_filter rows _ _ _ (decile_mask_imp_keep d hd),
    masked_weighted_sum_filter rows _ _ _
      (fun h hh => decile_mask_imp_keep d hd h (by rw [Bool.and_eq_true] at hh; exact hh.1))]

theorem district_loser_drop_sentinel (rows : List Household) (d : ℤ) (hd : 1 ≤ d) :
    district_loser_proportion (rows.filter (fun h => decide (1 ≤ h.decile))) d
      = district_loser_proportion rows d := by
  unfold district_loser_proportion masked_people_sum
  rw [filter_filter_of_imp rows _ _ (decile_mask_imp_keep d hd),
    masked_weighted_sum_filter rows _ _ _ (decile_mask_imp_keep d hd),
    masked_weighted_sum_filter rows _ _ _
      (fun h hh => decile_mask_imp_keep d hd h (by rw [Bool.and_eq_true] at hh; exact hh.1))]

/-- C3 (amended): dropping all rows with `decile < 1` changes no decile
group 1..10 of the decile-impact calculator, no winners/losers bucket
proportion at a decile 1..10, no bucket aggregate, and no district
winners/losers share — but the decile-impact calculator itself only drops
`decile < 0` rows, so a `decile = 0` row forms its own group key 0
(see the counterexample). -/
theorem sentinel_decile_filtering (rows : List Household) (d : ℤ) (hd : 1 ≤ d) :
    decile_relative rows d
        = decile_relative (rows.filter (fun h => decide (1 ≤ h.decile))) d
  ∧ decile_average rows d
        = decile_average (rows.filter (fun h => decide (1 ≤ h.decile))) d
  ∧ (∀ lower upper, bucket_proportion rows d lower upper
        = bucket_proportion (rows.filter (fun h => decide (1 ≤ h.decile))) d lower upper)
  ∧ gain_more_5pct rows = gain_more_5pct (rows.filter (fun h => decide (1 ≤ h.decile)))
  ∧ gain_less_5pct rows = gain_less_5pct (rows.filter (fun h => decide (1 ≤ h.decile)))
  ∧ no_change_share rows = no_change_share (rows.filter (fun h => decide (1 ≤ h.decile)))
  ∧ lose_less_5pct rows = lose_less_5pct (rows.filter (fun h => decide (1 ≤ h.decile)))
  ∧ lose_more_5pct rows = lose_more_5pct (rows.filter (fun h => decide (1 ≤ h.decile)))
  ∧ winners_share rows = winners_share (rows.filter (fun h => decide (1 ≤ h.decile)))
  ∧ losers_share rows = losers_share (rows.filter (fun h => decide (1 ≤ h.decile))) := by
  refine ⟨?_, ?_, ?_, ?_, ?_, ?_, ?_, ?_, ?_, ?_⟩
  · unfold decile_relative
    rw [masked_weighted_sum_filter rows _ _ _ (decile_group_mask_imp_keep d hd),
      masked_weighted_sum_filter rows _ _ _ (decile_group_mask_imp_keep d hd)]
  · unfold decile_average
    rw [masked_weighted_sum_filter rows _ _ _ (decile_group_mask_imp_keep d hd),
      masked_weighted_sum_filter rows _ _ _ (decile_group_mask_imp_keep d hd)]
  · intro lower upper
    exact (bucket_proportion_drop_sentinel rows d hd lower upper).symm
  · unfold gain_more_5pct bucket_average
    congr 1
    exact congrArg List.sum (List.map_congr_left fun i _ =>
      (bucket_proportion_drop_sentinel rows ((i : ℤ) + 1) (one_le_cast_succ i) _ _).symm)
  · unfold gain_less_5pct bucket_average
    congr 1
    exact congrArg List.sum (List.map_congr_left fun i _ =>
      (bucket_proportion_drop_sentinel rows ((i : ℤ) + 1) (one_le_cast_succ i) _ _).symm)
  · unfold no_change_share bucket_average
    congr 1
    exact congrArg List.sum (List.map_congr_left fun i _ =>
      (bucket_proportion_drop_sentinel rows ((i : ℤ) + 1) (one_le_cast_succ i) _ _).symm)
  · unfold lose_less_5pct bucket_average
    congr 1
    exact congrArg List.sum (List.map_congr_left fun i _ =>
      (bucket_proportion_drop_sentinel rows ((i : ℤ) + 1) (one_le_cast_succ i) _ _).symm)
  · unfold lose_more_5pct bucket_average
    congr 1
    exact congrArg List.sum (List.map_congr_left fun i _ =>
      (bucket_proportion_drop_sentinel rows ((i : ℤ) + 1) (one_le_cast_succ i) _ _).symm)
  · unfold winners_share
    congr 1
    exact congrArg List.sum (List.map_congr_left fun i _ =>
      (district_winner_drop_sentinel rows ((i : ℤ) + 1) (one_le_cast_succ i)).symm)
  · unfold losers_share
    congr 1
    exact congrArg List.sum (List.map_congr_left fun i _ =>
      (district_loser_drop_sentinel rows ((i : ℤ) + 1) (one_le_cast_succ i)).symm)

/-- C3 (counterexample): the decile-impact calculator's `decile >= 0`
filter keeps a `decile = 0` row, which forms its own group key 0 in the
output — such a row is not excluded from every decile aggregate. -/
theorem sentinel_decile_filtering_refuted :
    ([⟨100, 105, 1, 1, 0⟩] : List Household).filter (fun h => decide (0 ≤ h.decile))
        = [⟨100, 105, 1, 1, 0⟩]
  ∧ decile_impact_keys [⟨100, 105, 1, 1, 0⟩] = [0]
  ∧ decile_impact_keys ([] : List Household) = [] := by
  refine ⟨?_, ?_, rfl⟩
  · norm_num [List.filter]
  · norm_num [decile_impact_keys, List.dedup]

/-- C3 (witness): the sentinel-filtering invariance applied at decile 1 on
a list containing a sentinel row. -/
theorem sentinel_decile_filtering_check :
    (1 : ℤ) ≤ 1
  ∧ decile_relative [⟨100, 105, 1, 1, 1⟩, ⟨50, 60, 1, 1, 0⟩] 1
      = decile_relative (([⟨100, 105, 1, 1, 1⟩, ⟨50, 60, 1, 1, 0⟩] : List Household).filter
          (fun h => decide (1 ≤ h.decile))) 1 :=
  ⟨le_refl 1,
    (sentinel_decile_filtering [⟨100, 105, 1, 1, 1⟩, ⟨50, 60, 1, 1, 0⟩] 1 (le_refl 1)).1⟩

/-- C5 (counterexample): the child-poverty path with no children (an
`age < 18` filter selecting zero total weight) raises inside
`MicroSeries.mean` instead of returning 0.0 — embedded as `none`. -/
theorem zero_weight_group_behavior_refuted :
    compute_poverty_impact [⟨0, 0, 1, 30⟩] true = none := by
  norm_num [compute_poverty_impact, micro_mean]

/-- C5 (amended): the winners/losers group proportion returns 0.0 on a
zero-weight decile (its guard), but the poverty weighted mean fails
(raises, modelled `none`) when the filtered weights sum to 0. -/
theorem zero_weight_group_behavior (rows : List Household) (d : ℤ)
    (lower upper : Option ℚ) (ps : List Person)
    (hw : ∀ h ∈ rows, 0 ≤ h.weight ∧ 0 ≤ h.count_people)
    (hdec : masked_people_sum rows (fun h => h.decile == d) = 0)
    (hpw : ((ps.filter (fun p => decide (p.age < 18))).map (fun p => p.weight)).sum = 0) :
    bucket_proportion rows d lower upper = 0
  ∧ compute_poverty_impact ps true = none := by
  refine ⟨bucket_proportion_of_zero_people rows d lower upper hw hdec, ?_⟩
  simp [compute_poverty_impact, micro_mean, hpw]

/-- C5 (witness): the amended statement applied to an empty household list
and a single-adult person list. -/
theorem zero_weight_group_behavior_check :
    (∀ h ∈ ([] : List Household), 0 ≤ h.weight ∧ 0 ≤ h.count_people)
  ∧ masked_people_sum ([] : List Household) (fun h => h.decile == 1) = 0
  ∧ ((([⟨0, 0, 1, 30⟩] : List Person).filter
        (fun p => decide (p.age < 18))).map (fun p => p.weight)).sum = 0
  ∧ (bucket_proportion ([] : List Household) 1 none none = 0
      ∧ compute_poverty_impact [⟨0, 0, 1, 30⟩] true = none) :=
  ⟨fun h hh => absurd hh (List.not_mem_nil h), rfl, by norm_num,
    zero_weight_group_behavior [] 1 none none [⟨0, 0, 1, 30⟩]
      (fun h hh => absurd hh (List.not_mem_nil h)) rfl (by norm_num)⟩

/-- C6 (amended): the decile-impact output holds exactly the decile keys
occurring in the `decile >= 0`-filtered data; a decile absent from the
data is a missing key, not a 0.0 entry. -/
theorem decile_keys_characterization (rows : List Household) (d : ℤ) :
    d ∈ decile_impact_keys rows ↔ (0 ≤ d ∧ ∃ h ∈ rows, h.decile = d) := by
  unfold decile_impact_keys
  rw [List.mem_dedup, List.mem_map]
  constructor
  · rintro ⟨h, hmem, rfl⟩
    rw [List.mem_filter] at hmem
    exact ⟨by simpa using hmem.2, h, hmem.1, rfl⟩
  · rintro ⟨hd0, h, hmem, rfl⟩
    exact ⟨h, List.mem_filter.mpr ⟨hmem, by simpa using hd0⟩, rfl⟩

/-- C6 (counterexample): on data containing only decile 1, the decile
output has key 1 only — key 2 (and every other decile key) is missing
rather than bound to 0.0. -/
theorem decile_keys_characterization_refuted :
    decile_impact_keys [⟨100, 105, 1, 1, 1⟩] = [1]
  ∧ (2 : ℤ) ∉ decile_impact_keys [⟨100, 105, 1, 1, 1⟩] := by
  constructor
  · norm_num [decile_impact_keys, List.dedup]
  · norm_num [decile_impact_keys, List.dedup]

theorem round_half_even_abs (q : ℚ) : |(round_half_even q : ℚ) - q| ≤ 1/2 := by
  have hle : ((⌊q⌋ : ℤ) : ℚ) ≤ q := Int.floor_le q
  have hlt : q < (⌊q⌋ : ℚ) + 1 := Int.lt_floor_add_one q
  simp only [round_half_even]
  by_cases h1 : q - (⌊q⌋ : ℚ) < 1/2
  · rw [if_pos h1, abs_of_nonpos (by linarith)]
    linarith
  · rw [if_neg h1]
    by_cases h2 : 1/2 < q - (⌊q⌋ : ℚ)
    · rw [if_pos h2]
      push_cast
      rw [abs_of_nonneg (by linarith)]
      linarith
    · rw [if_neg h2]
      have heq : q - (⌊q⌋ : ℚ) = 1/2 := le_antisymm (not_lt.mp h2) (not_lt.mp h1)
      by_cases h3 : Even (⌊q⌋)
      · rw [if_pos h3, abs_of_nonpos (by linarith)]
        linarith
      · rw [if_neg h3]
        push_cast
        rw [abs_of_nonneg (by linarith)]
        linarith

theorem py_round_abs (q : ℚ) (n : ℕ) : |py_round q n - q| ≤ 1 / (2 * 10 ^ n) := by
  have h10 : (0 : ℚ) < 10 ^ n := by positivity
  have h := round_half_even_abs (q * 10 ^ n)
  unfold py_round
  rw [show (round_half_even (q * 10 ^ n) : ℚ) / 10 ^ n - q
      = ((round_half_even (q * 10 ^ n) : ℚ) - q * 10 ^ n) / 10 ^ n by
        field_simp
        ring,
    abs_div, abs_of_pos h10, div_le_div_iff₀ h10 (by positivity)]
  nlinarith [h, h10]

/-- C7 (amended): `format_district_impact` stores every district numeric
field through Python `round` — the stored value differs from the computed
one by at most half a unit in the last kept place (1/2 for the whole-dollar
fields, 1/200 for the two-decimal share and percent fields); the claim's
"stored equals unrounded computed value" fails (see the counterexample). -/
theorem district_rounding_bound (district_id district_name : String)
    (avg_benefit : ℚ) (households_affected : ℤ) (total_benefit : Option ℚ)
    (winners_share_arg losers_share_arg poverty_pct_change
      child_poverty_pct_change : ℚ) :
    |(format_district_impact district_id district_name avg_benefit households_affected
        total_benefit winners_share_arg losers_share_arg poverty_pct_change
        child_poverty_pct_change).avgBenefit - avg_benefit| ≤ 1/2
  ∧ |(format_district_impact district_id district_name avg_benefit households_affected
        total_benefit winners_share_arg losers_share_arg poverty_pct_change
        child_poverty_pct_change).totalBenefit
      - total_benefit.getD (avg_benefit * households_affected)| ≤ 1/2
  ∧ |(format_district_impact district_id district_name avg_benefit households_affected
        total_benefit winners_share_arg losers_share_arg poverty_pct_change
        child_poverty_pct_change).winnersShare - winners_share_arg| ≤ 1/200
  ∧ |(format_district_impact district_id district_name avg_benefit households_affected
        total_benefit winners_share_arg losers_share_arg poverty_pct_change
        child_poverty_pct_change).losersShare - losers_share_arg| ≤ 1/200
  ∧ |(format_district_impact district_id district_name avg_benefit households_affected
        total_benefit winners_share_arg losers_share_arg poverty_pct_change
        child_poverty_pct_change).povertyPctChange - poverty_pct_change| ≤ 1/200
  ∧ |(format_district_impact district_id district_name avg_benefit households_affected
        total_benefit winners_share_arg losers_share_arg poverty_pct_change
        child_poverty_pct_change).childPovertyPctChange
      - child_poverty_pct_change| ≤ 1/200 := by
  refine ⟨?_, ?_, ?_, ?_, ?_, ?_⟩
  · have h := py_round_abs avg_benefit 0
    norm_num at h
    simpa [format_district_impact] using h
  · have h := py_round_abs (total_benefit.getD (avg_benefit * households_affected)) 0
    norm_num at h
    simpa [format_district_impact] using h
  · have h := py_round_abs winners_share_arg 2
    norm_num at h
    simpa [format_district_impact] using h
  · have h := py_round_abs losers_share_arg 2
    norm_num at h
    simpa [format_district_impact] using h
  · have h := py_round_abs poverty_pct_change 2
    norm_num at h
    simpa [format_district_impact] using h
  · have h := py_round_abs child_poverty_pct_change 2
    norm_num at h
    simpa [format_district_impact] using h

/-- C7 (counterexample): an average benefit of 1.3 dollars is stored as
the rounded value 1, not the full-precision computed value. -/
theorem district_rounding_bound_refuted :
    (format_district_impact "SC-1" "Congressional District 1" (13/10) 5
        (some (13/2)) (123/1000) 0 0 0).avgBenefit = 1
  ∧ (format_district_impact "SC-1" "Congressional District 1" (13/10) 5
        (some (13/2)) (123/1000) 0 0 0).avgBenefit ≠ 13/10 := by
  constructor <;>
    norm_num [format_district_impact, py_round, round_half_even]

/-- C9 (amended): the budgetary households field is `int(sum(weights))` —
for nonnegative weights, the floor of the raw weight sum, an integer
truncation rather than the raw real-valued sum. -/
theorem households_is_floor_of_weight_sum (tax_units : List TaxUnit)
    (ws : List ℚ) (hw : ∀ w ∈ ws, 0 ≤ w) :
    (compute_budgetary_impact tax_units ws).households = ⌊ws.sum⌋ := by
  have hsum : 0 ≤ ws.sum := List.sum_nonneg hw
  simp only [compute_budgetary_impact, format_budgetary_impact, py_int]
  rw [if_neg (not_lt.mpr hsum)]

/-- C9 (counterexample): with weights `[1.5, 1.2]` the raw sum is 2.7 but
the stored households value is the integer 2 — not the raw real-valued
weight sum. -/
theorem households_is_floor_refuted :
    (compute_budgetary_impact [] [3/2, 6/5]).households = 2
  ∧ ([3/2, 6/5] : List ℚ).sum = 27/10
  ∧ ((2 : ℤ) : ℚ) ≠ 27/10 := by
  refine ⟨?_, by norm_num, by norm_num⟩
  norm_num [compute_budgetary_impact, format_budgetary_impact, py_int]

/-- C9 (witness): the floor characterisation applied to weights
`[1.5, 1.2]`. -/
theorem households_is_floor_check :
    (∀ w ∈ ([3/2, 6/5] : List ℚ), 0 ≤ w)
  ∧ (compute_budgetary_impact [] [3/2, 6/5]).households
      = ⌊([3/2, 6/5] : List ℚ).sum⌋ :=
  ⟨by intro w hw; fin_cases hw <;> norm_num,
    households_is_floor_of_weight_sum [] [3/2, 6/5]
      (by intro w hw; fin_cases hw <;> norm_num)⟩

theorem dict_get_dict_set_ne (m : List (ℕ × YearImpacts)) (y : ℕ)
    (v : YearImpacts) (y' : ℕ) (hne : y' ≠ y) :
    dict_get (dict_set m y v) y' = dict_get m y' := by
  induction m with
  | nil => simp [dict_set, dict_get, Ne.symm hne]
  | cons kv t ih =>
      obtain ⟨k, w⟩ := kv
      by_cases hk : k = y
      · simp [dict_set, dict_get, hk, Ne.symm hne]
      · simp [dict_set, dict_get, hk, ih]

/-- C10: the multi-year merge writes only the new year's key into
`impacts_by_year`; every other year's record is looked up unchanged. -/
theorem multi_year_merge_preserves_other_years (notes : ModelNotes)
    (analysis_year : ℕ) (year_impacts : YearImpacts) (other_year : ℕ)
    (hne : other_year ≠ analysis_year) :
    dict_get (write_multi_year_notes notes analysis_year year_impacts).impacts_by_year
        other_year
      = dict_get notes.impacts_by_year other_year := by
  simp only [write_multi_year_notes]
  exact dict_get_dict_set_ne notes.impacts_by_year analysis_year year_impacts
    other_year hne

/-- C10 (witness): computing 2026 then merging 2027 leaves the stored
2026 record untouched in the archive. -/
theorem multi_year_merge_check :
    (2026 : ℕ) ≠ 2027
  ∧ dict_get (write_multi_year_notes ⟨2026, [(2026, sample_year_impacts)]⟩
        2027 sample_year_impacts_b).impacts_by_year 2026
      = dict_get [(2026, sample_year_impacts)] 2026
  ∧ dict_get [(2026, sample_year_impacts)] 2026 = some sample_year_impacts :=
  ⟨by decide,
    multi_year_merge_preserves_other_years ⟨2026, [(2026, sample_year_impacts)]⟩
      2027 sample_year_impacts_b 2026 (by decide),
    by simp [dict_get]⟩
